import Mathlib

/-!
# Verification of the ARES GPU memory manager's reservation strategy engine

This file gives a shallow embedding of the memory reservation logic of
`src/nodes.py` (classes `GPUManager`, `MemoryCleaner`,
`MemoryStrategyCalculator`, `ReservedMemorySetter`, `BatchMemoryCleaner`)
and proves properties of the embedded functions.

Modelling conventions:
* Python floats carrying GB quantities are modelled as rationals (`ℚ`);
  the constants 0.2, 0.4, 0.8, 0.85, 0.9 are exact.
* Python's `int(x)` (truncation toward zero) is modelled by `pyInt`.
* The human-readable explanation strings built by the source are modelled
  by the structured type `Detail`: one constructor per distinct format
  string of the source, carrying exactly the numbers interpolated there.
* Telemetry (`pynvml` + `GPUManager`) is modelled by an explicit
  environment `GPUEnv`; a failing low-level query is `none`.
* Python's `ZeroDivisionError` (raised by `_smart_mode` when
  `total_gb = 0`) is modelled by an `Option` result: `none` is the raised
  exception, caught by `set_memory`'s outer handler.
-/

/-- Truncation toward zero, the semantics of Python's `int()` on a float. -/
def pyInt (q : ℚ) : ℤ := if 0 ≤ q then ⌊q⌋ else ⌈q⌉

/-- Source constant `GB_TO_BYTES = 1024 * 1024 * 1024`. -/
def GB_TO_BYTES : ℚ := 1024 * 1024 * 1024

/-- Source constant `DEFAULT_RESERVED_GB = 1.0`. -/
def DEFAULT_RESERVED_GB : ℚ := 1.0

/-- Source constant `MIN_SAFE_RESERVE_GB = 2.0`. -/
def MIN_SAFE_RESERVE_GB : ℚ := 2.0

/-- Source constant `MAX_RESERVED_RATIO = 0.9`, the global reservation ceiling. -/
def MAX_RESERVED_RATIO : ℚ := 0.9

/-- Entry `"tight"` of the source dict `MEMORY_STRATEGY`. -/
def MEMORY_STRATEGY_tight : ℚ := 0.8

/-- Entry `"medium"` of the source dict `MEMORY_STRATEGY`. -/
def MEMORY_STRATEGY_medium : ℚ := 0.85

/-- Entry `"loose"` of the source dict `MEMORY_STRATEGY`. -/
def MEMORY_STRATEGY_loose : ℚ := 0.9

/-- A device memory snapshot: the `(total_gb, used_gb, free_gb)` triple
returned by `GPUManager.get_gpu_memory_info`. -/
structure MemInfo where
  total_gb : ℚ
  used_gb : ℚ
  free_gb : ℚ
deriving DecidableEq, Repr

/-- The telemetry environment behind `GPUManager`: whether `pynvml`
initialised, the enumerated device count, and the outcome of the
per-device memory query (`none` models a query that fails and is caught).
The source reads the count from `pynvml` or from `torch.cuda`; both are
modelled by the single field `device_count`. -/
structure GPUEnv where
  pynvml_available : Bool
  device_count : ℕ
  mem_query : ℕ → Option MemInfo

/-- `GPUManager.validate_gpu_index`: an index is valid iff it lies in
`[0, device_count)`. -/
def validate_gpu_index (e : GPUEnv) (gpu_index : ℤ) : Bool :=
  decide (0 ≤ gpu_index ∧ gpu_index < e.device_count)

/-- `GPUManager.get_gpu_memory_info`: `none` when `pynvml` is unavailable,
when the index fails validation, or when the underlying query fails;
otherwise the snapshot. -/
def get_gpu_memory_info (e : GPUEnv) (gpu_index : ℤ) : Option MemInfo :=
  if e.pynvml_available then
    if validate_gpu_index e gpu_index then e.mem_query gpu_index.toNat
    else none
  else none

/-- Pressure label chosen by `_smart_mode` (rendered `"紧张"`, `"中等"`,
`"充足"` in the source's explanation string). -/
inductive SmartStatus where
  | tight
  | medium
  | loose
deriving DecidableEq, Repr

/-- Structured model of the explanation string returned next to the byte
count. Each constructor corresponds to one format string of the source
and carries the numbers interpolated into it. -/
inductive Detail where
  /-- `"手动模式: {reserved} → {safe_reserved} (限制为总显存的90%)"` -/
  | manualClamped (reserved safe_reserved : ℚ)
  /-- `"手动模式: {manual_reserved} (总{total_gb}, 已用{used_gb})"` -/
  | manualInfo (manual_reserved total_gb used_gb : ℚ)
  /-- `"手动模式: {manual_reserved} (无GPU信息)"` -/
  | manualNoInfo (manual_reserved : ℚ)
  /-- `"自动模式: {auto_reserved} → {safe_reserved} (已用.. + 缓冲.., 限制为85%)"` -/
  | autoAdjusted (auto_reserved safe_reserved used_gb reserved : ℚ)
  /-- `"自动模式: {safe_reserved} (已用{used_gb} + 缓冲{reserved})"` -/
  | autoNormal (safe_reserved used_gb reserved : ℚ)
  /-- `"智能模式(无GPU信息): {default_value}"` -/
  | smartNoInfo (default_value : ℚ)
  /-- `"智能模式: {safe} (状态:.., 可用../..=..%)"` plus the optional
  `" [调整: {smart_reserved}→{safe_reserved}]"` suffix. -/
  | smartInfo (safe_reserved : ℚ) (status : SmartStatus)
      (free_gb total_gb available_ratio : ℚ) (adjustment : Option (ℚ × ℚ))
  /-- `"默认模式"`, the unknown-mode branch. -/
  | defaultMode
deriving DecidableEq, Repr

/-- `MemoryStrategyCalculator._manual_mode`. -/
def _manual_mode (reserved min_safe_reserve : ℚ) (memory_info : Option MemInfo) :
    ℤ × Detail :=
  let manual_reserved := max reserved min_safe_reserve
  match memory_info with
  | some info =>
    let max_allowed := info.total_gb * MAX_RESERVED_RATIO
    if manual_reserved > max_allowed then
      let safe_reserved := max_allowed
      (pyInt (safe_reserved * GB_TO_BYTES), .manualClamped reserved safe_reserved)
    else
      (pyInt (manual_reserved * GB_TO_BYTES),
        .manualInfo manual_reserved info.total_gb info.used_gb)
  | none =>
    (pyInt (manual_reserved * GB_TO_BYTES), .manualNoInfo manual_reserved)

/-- `MemoryStrategyCalculator._auto_mode`. On a missing snapshot it falls
back to `_manual_mode` (the source also logs a warning). -/
def _auto_mode (reserved min_safe_reserve : ℚ) (memory_info : Option MemInfo) :
    ℤ × Detail :=
  match memory_info with
  | none => _manual_mode reserved min_safe_reserve none
  | some info =>
    let auto_reserved := info.used_gb + reserved
    let auto_reserved := max auto_reserved min_safe_reserve
    let max_allowed := info.total_gb * 0.85
    let safe_reserved := min auto_reserved max_allowed
    if auto_reserved = safe_reserved then
      (pyInt (safe_reserved * GB_TO_BYTES),
        .autoNormal safe_reserved info.used_gb reserved)
    else
      (pyInt (safe_reserved * GB_TO_BYTES),
        .autoAdjusted auto_reserved safe_reserved info.used_gb reserved)

/-- `MemoryStrategyCalculator._smart_mode`. The result is `none` exactly
when the source raises `ZeroDivisionError` (`free_gb / total_gb` with
`total_gb = 0`). -/
def _smart_mode (reserved min_safe_reserve : ℚ) (memory_info : Option MemInfo) :
    Option (ℤ × Detail) :=
  match memory_info with
  | none =>
    let default_value := max (reserved + 1.0) min_safe_reserve
    some (pyInt (default_value * GB_TO_BYTES), .smartNoInfo default_value)
  | some info =>
    if info.total_gb = 0 then none
    else
      let available_ratio := info.free_gb / info.total_gb
      let base_reserved := info.used_gb + reserved
      let picked :=
        if available_ratio < 0.2 then
          (max base_reserved (info.total_gb * MEMORY_STRATEGY_tight), SmartStatus.tight)
        else if available_ratio < 0.4 then
          (base_reserved, SmartStatus.medium)
        else
          (max base_reserved min_safe_reserve, SmartStatus.loose)
      let smart_reserved := max picked.1 min_safe_reserve
      let max_allowed := info.total_gb * MAX_RESERVED_RATIO
      let safe_reserved := min smart_reserved max_allowed
      let adjustment :=
        if smart_reserved = safe_reserved then none
        else some (smart_reserved, safe_reserved)
      some (pyInt (safe_reserved * GB_TO_BYTES),
        .smartInfo safe_reserved picked.2 info.free_gb info.total_gb
          available_ratio adjustment)

/-- `MemoryStrategyCalculator.calculate_reserved_memory`: fetch the
snapshot for `gpu_index` and dispatch on `mode`; an unrecognized mode
returns `int(max(reserved, min_safe_reserve) * GB_TO_BYTES)` with the
fixed `"默认模式"` explanation (the source also logs a warning). -/
def calculate_reserved_memory (reserved : ℚ) (mode : String) (gpu_index : ℤ)
    (min_safe_reserve : ℚ) (e : GPUEnv) : Option (ℤ × Detail) :=
  let memory_info := get_gpu_memory_info e gpu_index
  if mode == "manual" then
    some (_manual_mode reserved min_safe_reserve memory_info)
  else if mode == "auto" then
    some (_auto_mode reserved min_safe_reserve memory_info)
  else if mode == "smart" then
    _smart_mode reserved min_safe_reserve memory_info
  else
    some (pyInt (max reserved min_safe_reserve * GB_TO_BYTES), .defaultMode)

/-- Per-invocation environment of `MemoryCleaner.clear_gpu_memory`: the two
telemetry reads (taken before and after the cache release; `none` models a
failed read), whether `torch.cuda.is_available()`, and the object count
returned by `gc.collect()`. The model covers the normal execution path in
which the runtime cache calls themselves do not raise. -/
structure CleanEnv where
  before_memory : Option MemInfo
  after_memory : Option MemInfo
  cuda_available : Bool
  gc_collected : ℕ

/-- The result dict built by `MemoryCleaner.clear_gpu_memory`. -/
structure CleanResult where
  success : Bool
  torch_cuda : Bool
  gc_collected : ℕ
  before_memory : Option MemInfo
  after_memory : Option MemInfo
  freed_memory_gb : ℚ
  freed_memory_mb : ℚ
deriving DecidableEq, Repr

/-- `MemoryCleaner.clear_gpu_memory`: when both telemetry reads succeed,
`freed_memory_gb = used_before - used_after` (reported as-is, no clamping)
and `success = true`; when either read fails, the freed fields keep their
initial `0.0` and `success` is still set to `true`. -/
def clear_gpu_memory (env : CleanEnv) : CleanResult :=
  match env.before_memory, env.after_memory with
  | some before, some after =>
    let freed_gb := before.used_gb - after.used_gb
    { success := true
      torch_cuda := env.cuda_available
      gc_collected := env.gc_collected
      before_memory := some before
      after_memory := some after
      freed_memory_gb := freed_gb
      freed_memory_mb := freed_gb * 1024 }
  | b, a =>
    { success := true
      torch_cuda := env.cuda_available
      gc_collected := env.gc_collected
      before_memory := b
      after_memory := a
      freed_memory_gb := 0
      freed_memory_mb := 0 }

/-- `ReservedMemorySetter.set_memory`. The returned pair is the node's
output tuple `(anything,)` together with the value written to
`model_management.EXTRA_RESERVED_MEMORY`. An invalid `gpu_index` is
replaced by `0`; the `none` branch of the calculator (the raised
`ZeroDivisionError`) is the source's outer `except` handler, which writes
`int(max(DEFAULT_RESERVED_GB, min_safe_reserve) * GB_TO_BYTES)`. The
`clear_memory` and `show_gpu_info` flags only trigger logging and cache
release in the source; the snapshot the calculator reads is the state of
`e.mem_query` at computation time. -/
def set_memory {α : Type} (e : GPUEnv) (anything : α) (reserved : ℚ) (mode : String)
    (gpu_index : ℤ) (min_safe_reserve : ℚ) (clear_memory show_gpu_info : Bool) : α × ℤ :=
  let gpu_index := if validate_gpu_index e gpu_index then gpu_index else 0
  match calculate_reserved_memory reserved mode gpu_index min_safe_reserve e with
  | some (reserved_bytes, _detail) => (anything, reserved_bytes)
  | none => (anything, pyInt (max DEFAULT_RESERVED_GB min_safe_reserve * GB_TO_BYTES))

/-- One line of the report string assembled by `BatchMemoryCleaner.clean`,
modelled structurally (one constructor per format string of the source). -/
inductive ReportLine where
  /-- `"=== 显存清理报告 ==="` -/
  | header
  /-- `"GPU {i}: 释放 {freed}GB"` -/
  | gpuFreed (i : ℕ) (freed_gb : ℚ)
  /-- `"总计释放: {total_freed}GB"` -/
  | totalFreed (total_freed : ℚ)
  /-- `"释放显存: {freed}GB"` -/
  | singleFreed (freed_gb : ℚ)
  /-- `"已执行深度清理"` -/
  | deepClean
  /-- `"✓ 清理完成"` -/
  | done
deriving DecidableEq, Repr

/-- Environment of `BatchMemoryCleaner.clean`: `torch.cuda` availability,
the device count, and the per-device cleaner environment. -/
structure BatchEnv where
  cuda_available : Bool
  device_count : ℕ
  cleaner : ℕ → CleanEnv

/-- `BatchMemoryCleaner.clean` (normal path: no exception raised by the
underlying cache calls). Returns the `(output, report)` pair. -/
def clean {α : Type} (env : BatchEnv) (anything : α)
    (clear_all_gpus aggressive : Bool) : α × List ReportLine :=
  let report0 := [ReportLine.header]
  let report1 :=
    if clear_all_gpus then
      let gpu_count := if env.cuda_available then env.device_count else 0
      let results := (List.range gpu_count).map fun i => (i, clear_gpu_memory (env.cleaner i))
      let freed_lines := results.filterMap fun p =>
        if p.2.success then some (ReportLine.gpuFreed p.1 p.2.freed_memory_gb) else none
      let total_freed := (results.filterMap fun p =>
        if p.2.success then some p.2.freed_memory_gb else none).sum
      report0 ++ freed_lines ++ [ReportLine.totalFreed total_freed]
    else
      let result := clear_gpu_memory (env.cleaner 0)
      report0 ++ (if result.success then [ReportLine.singleFreed result.freed_memory_gb] else [])
  let report2 := if aggressive then report1 ++ [ReportLine.deepClean] else report1
  (anything, report2 ++ [ReportLine.done])

/-! ## Specification-side formulas

The following definitions transcribe formulas from the natural-language
specification (not from the source); the theorems below compare the
source model against them. -/

/-- Auto-mode sizing formula as the specification states it:
`min(max(used_gb + target_gb, min_safe_gb), total_gb * 0.85)`. -/
def autoSpecValue (target_gb min_safe_gb : ℚ) (info : MemInfo) : ℚ :=
  min (max (info.used_gb + target_gb) min_safe_gb) (info.total_gb * 0.85)

/-- Smart-mode sizing formula as the specification states it: three bands
on `available_ratio = free_gb / total_gb`, then the floor `min_safe_gb`,
then the ceiling `total_gb * 0.9`. -/
def smartSpecValue (target_gb min_safe_gb : ℚ) (info : MemInfo) : ℚ :=
  let ratio := info.free_gb / info.total_gb
  let band :=
    if ratio < 0.2 then max (info.used_gb + target_gb) (info.total_gb * 0.8)
    else if ratio < 0.4 then info.used_gb + target_gb
    else max (info.used_gb + target_gb) min_safe_gb
  min (max band min_safe_gb) (info.total_gb * 0.9)

/-- The per-mode reservation ceiling the specification names for requests
carrying a snapshot: `0.85` of total for auto mode, `0.9` of total
elsewhere. -/
def modeCap (mode : String) : ℚ := if mode == "auto" then 0.85 else 0.9

/-- A one-device telemetry environment whose single query returns `mem`;
used to instantiate claims at concrete snapshots. -/
def envOf (mem : Option MemInfo) : GPUEnv :=
  { pynvml_available := true, device_count := 1, mem_query := fun _ => mem }

/-! ## Helper lemmas about `pyInt` -/

theorem pyInt_nonneg {q : ℚ} (h : 0 ≤ q) : 0 ≤ pyInt q := by
  simp only [pyInt, if_pos h]
  exact Int.floor_nonneg.mpr h

theorem pyInt_cast_le {q : ℚ} (h : 0 ≤ q) : (pyInt q : ℚ) ≤ q := by
  simp only [pyInt, if_pos h]
  exact Int.floor_le q

theorem pyInt_mono {q r : ℚ} (h0 : 0 ≤ q) (h : q ≤ r) : pyInt q ≤ pyInt r := by
  simp only [pyInt, if_pos h0, if_pos (h0.trans h)]
  exact Int.floor_mono h

theorem GB_TO_BYTES_nonneg : (0 : ℚ) ≤ GB_TO_BYTES := by norm_num [GB_TO_BYTES]

theorem pyInt_mul_GB_mono {q r : ℚ} (h0 : 0 ≤ q) (h : q ≤ r) :
    pyInt (q * GB_TO_BYTES) ≤ pyInt (r * GB_TO_BYTES) :=
  pyInt_mono (mul_nonneg h0 GB_TO_BYTES_nonneg)
    (mul_le_mul_of_nonneg_right h GB_TO_BYTES_nonneg)

/-- C4: auto mode with a snapshot returns
`int(min(max(used_gb + target_gb, min_safe_gb), total_gb * 0.85) * 2^30)`
bytes; with no snapshot it returns exactly the manual-mode result on the
same inputs; on `{total:24, used:10, free:14}`, `target_gb=1.0`,
`min_safe_gb=2.0` the result is `int(11.0 * 2^30)` bytes. -/
theorem claim_C4_auto_formula :
    (∀ (t m : ℚ) (info : MemInfo),
      (_auto_mode t m (some info)).1 = pyInt (autoSpecValue t m info * GB_TO_BYTES))
    ∧ (∀ t m : ℚ, _auto_mode t m none = _manual_mode t m none)
    ∧ (_auto_mode 1 2 (some ⟨24, 10, 14⟩)).1 = 11 * 2 ^ 30 := by
  refine ⟨?_, ?_, ?_⟩
  · intro t m info
    simp only [_auto_mode, autoSpecValue]
    split <;> rfl
  · intro t m
    rfl
  · norm_num [_auto_mode, GB_TO_BYTES, pyInt]

/-- C3: smart mode with a snapshot of positive total classifies
`available_ratio = free_gb / total_gb` into three bands, raises the band
value to `min_safe_gb` and caps it at `total_gb * 0.9`; on
`{total:24, used:20, free:4}`, `target_gb=1.0` (with `min_safe_gb=2.0`)
the result is `int(21.0 * 2^30)` bytes. -/
theorem claim_C3_smart_formula :
    (∀ (t m : ℚ) (info : MemInfo), 0 < info.total_gb →
      (_smart_mode t m (some info)).map Prod.fst
        = some (pyInt (smartSpecValue t m info * GB_TO_BYTES)))
    ∧ (_smart_mode 1 2 (some ⟨24, 20, 4⟩)).map Prod.fst = some (21 * 2 ^ 30) := by
  constructor
  · intro t m info h
    have hne : info.total_gb ≠ 0 := ne_of_gt h
    simp only [_smart_mode, smartSpecValue, if_neg hne, MEMORY_STRATEGY_tight,
      MAX_RESERVED_RATIO, Option.map_some']
    by_cases h1 : info.free_gb / info.total_gb < 0.2
    · simp [h1]
    · by_cases h2 : info.free_gb / info.total_gb < 0.4 <;> simp [h1, h2]
  · norm_num [_smart_mode, MEMORY_STRATEGY_tight, MAX_RESERVED_RATIO, GB_TO_BYTES, pyInt]

/-- C7: smart mode with no snapshot returns
`int(max(target_gb + 1.0, min_safe_gb) * 2^30)` bytes and flags the
missing device info in the explanation; the `+1.0` pad makes it differ
from manual mode's no-snapshot fallback (witnessed at `target_gb=1.0`,
`min_safe_gb=0`). -/
theorem claim_C7_smart_fallback :
    (∀ t m : ℚ, _smart_mode t m none
      = some (pyInt (max (t + 1) m * GB_TO_BYTES), Detail.smartNoInfo (max (t + 1) m)))
    ∧ (_smart_mode 1 0 none).map Prod.fst ≠ some ((_manual_mode 1 0 none).1) := by
  constructor
  · intro t m
    norm_num [_smart_mode]
  · norm_num [_smart_mode, _manual_mode, GB_TO_BYTES, pyInt]

/-- C2 (counterexample): with snapshot `{total:1, used:0.5, free:0.5}`,
`target_gb=2.0`, `min_safe_gb=2.0`, the unknown mode `"turbo"` returns
`int(2.0 * 2^30)` while `"manual"` returns `int(0.9 * 2^30)` (the manual
clamp reads the snapshot, the unknown-mode branch ignores it), so the two
byte counts differ. -/
theorem claim_C2_counterexample :
    (calculate_reserved_memory 2 "turbo" 0 2 (envOf (some ⟨1, 0.5, 0.5⟩))).map Prod.fst
        = some 2147483648
    ∧ (calculate_reserved_memory 2 "manual" 0 2 (envOf (some ⟨1, 0.5, 0.5⟩))).map Prod.fst
        = some 966367641
    ∧ (2147483648 : ℤ) ≠ 966367641 := by
  refine ⟨?_, ?_, by decide⟩
  · rw [calculate_reserved_memory]
    rw [if_neg (by decide), if_neg (by decide), if_neg (by decide)]
    norm_num [GB_TO_BYTES, pyInt]
  · rw [calculate_reserved_memory, if_pos (by decide)]
    norm_num [get_gpu_memory_info, validate_gpu_index, envOf, _manual_mode,
      MAX_RESERVED_RATIO, GB_TO_BYTES, pyInt]

/-- C2 (amended): an unrecognized mode string ignores the snapshot and
returns `int(max(target_gb, min_safe_gb) * 2^30)` — the byte count of
manual mode's no-snapshot branch — with the fixed default-mode
explanation. -/
theorem claim_C2_amended (t m : ℚ) (mode : String) (e : GPUEnv) (i : ℤ)
    (h1 : mode ≠ "manual") (h2 : mode ≠ "auto") (h3 : mode ≠ "smart") :
    calculate_reserved_memory t mode i m e
        = some (pyInt (max t m * GB_TO_BYTES), Detail.defaultMode)
    ∧ (_manual_mode t m none).1 = pyInt (max t m * GB_TO_BYTES) := by
  constructor
  · simp [calculate_reserved_memory, h1, h2, h3]
  · rfl

/-- Witness for `claim_C2_amended` at mode `"turbo"`. -/
theorem claim_C2_amended_witness :
    calculate_reserved_memory 1 "turbo" 0 2 (envOf none)
        = some (pyInt (max 1 2 * GB_TO_BYTES), Detail.defaultMode)
    ∧ (_manual_mode 1 2 none).1 = pyInt (max 1 2 * GB_TO_BYTES) :=
  claim_C2_amended 1 2 "turbo" (envOf none) 0 (by decide) (by decide) (by decide)

/-- C1 (counterexample): manual mode with snapshot
`{total:1, used:0.5, free:0.5}`, `target_gb=0`, `min_safe_gb=2.0` (a
well-formed request) returns `int(0.9 * 2^30) = 966367641` bytes, which is
below `min_safe_gb * 2^30 = 2 * 2^30`: the 90%-of-total clamp overrides
the floor. -/
theorem claim_C1_counterexample :
    (calculate_reserved_memory 0 "manual" 0 2 (envOf (some ⟨1, 0.5, 0.5⟩))).map Prod.fst
        = some 966367641
    ∧ ((966367641 : ℚ) < 2 * 2 ^ 30) := by
  constructor
  · rw [calculate_reserved_memory, if_pos (by decide)]
    norm_num [get_gpu_memory_info, validate_gpu_index, envOf, _manual_mode,
      MAX_RESERVED_RATIO, GB_TO_BYTES, pyInt]
  · norm_num


/-! ## Dispatch lemmas for `calculate_reserved_memory` -/

theorem calculate_manual_eq (t m : ℚ) (i : ℤ) (e : GPUEnv) :
    calculate_reserved_memory t "manual" i m e
      = some (_manual_mode t m (get_gpu_memory_info e i)) := rfl

theorem calculate_auto_eq (t m : ℚ) (i : ℤ) (e : GPUEnv) :
    calculate_reserved_memory t "auto" i m e
      = some (_auto_mode t m (get_gpu_memory_info e i)) := rfl

theorem calculate_smart_eq (t m : ℚ) (i : ℤ) (e : GPUEnv) :
    calculate_reserved_memory t "smart" i m e
      = _smart_mode t m (get_gpu_memory_info e i) := rfl

theorem calculate_unknown_eq (t m : ℚ) (mode : String) (i : ℤ) (e : GPUEnv)
    (h1 : mode ≠ "manual") (h2 : mode ≠ "auto") (h3 : mode ≠ "smart") :
    calculate_reserved_memory t mode i m e
      = some (pyInt (max t m * GB_TO_BYTES), Detail.defaultMode) := by
  simp [calculate_reserved_memory, h1, h2, h3]

theorem modeCap_manual : modeCap "manual" = 0.9 := rfl

theorem modeCap_auto : modeCap "auto" = 0.85 := rfl

theorem modeCap_smart : modeCap "smart" = 0.9 := rfl

/-! ## Per-mode floor bounds -/

theorem manual_fst_ge (t m : ℚ) (mem : Option MemInfo) (hm : 0 ≤ m)
    (hcap : ∀ info, mem = some info → m ≤ info.total_gb * 0.9) :
    pyInt (m * GB_TO_BYTES) ≤ (_manual_mode t m mem).1 := by
  cases mem with
  | none => exact pyInt_mul_GB_mono hm (le_max_right t m)
  | some info =>
    simp only [_manual_mode]
    split
    · exact pyInt_mul_GB_mono hm (by simpa [ MAX_RESERVED_RATIO] using hcap info rfl)
    · exact pyInt_mul_GB_mono hm (le_max_right t m)

theorem auto_fst_ge (t m : ℚ) (mem : Option MemInfo) (hm : 0 ≤ m)
    (hcap : ∀ info, mem = some info → m ≤ info.total_gb * 0.85) :
    pyInt (m * GB_TO_BYTES) ≤ (_auto_mode t m mem).1 := by
  cases mem with
  | none => exact manual_fst_ge t m none hm (by intro info h; cases h)
  | some info =>
    simp only [_auto_mode]
    split <;>
      exact pyInt_mul_GB_mono hm (le_min (le_max_right _ m) (hcap info rfl))

theorem smart_fst_ge (t m : ℚ) (mem : Option MemInfo) (b : ℤ) (d : Detail) (hm : 0 ≤ m)
    (hcap : ∀ info, mem = some info → m ≤ info.total_gb * 0.9)
    (hres : _smart_mode t m mem = some (b, d)) :
    pyInt (m * GB_TO_BYTES) ≤ b := by
  cases mem with
  | none =>
    simp only [_smart_mode, Option.some.injEq, Prod.mk.injEq] at hres
    obtain ⟨hb, -⟩ := hres
    subst hb
    exact pyInt_mul_GB_mono hm (le_max_right _ m)
  | some info =>
    simp only [_smart_mode] at hres
    split at hres
    · exact absurd hres (by simp)
    · simp only [Option.some.injEq, Prod.mk.injEq] at hres
      obtain ⟨hb, -⟩ := hres
      subst hb
      refine pyInt_mul_GB_mono hm (le_min (le_max_right _ m) ?_)
      simpa [ MAX_RESERVED_RATIO] using hcap info rfl

/-- C1 (amended): for every mode (the three named ones and any
unrecognized string) and every well-formed request, the returned byte
count is at least `int(min_safe_gb * 2^30)` provided `min_safe_gb` does
not exceed the mode's snapshot ceiling (`0.85 * total_gb` for auto,
`0.9 * total_gb` otherwise) whenever a snapshot is present; without that
proviso the ceiling can push the result below the floor
(`claim_C1_counterexample`). -/
theorem claim_C1_amended (t m : ℚ) (mode : String) (e : GPUEnv) (i : ℤ) (b : ℤ) (d : Detail)
    (hm : 0 ≤ m)
    (hcap : ∀ info, get_gpu_memory_info e i = some info → m ≤ info.total_gb * modeCap mode)
    (hres : calculate_reserved_memory t mode i m e = some (b, d)) :
    pyInt (m * GB_TO_BYTES) ≤ b := by
  by_cases hman : mode = "manual"
  · subst hman
    rw [calculate_manual_eq] at hres
    have hb : (_manual_mode t m (get_gpu_memory_info e i)).1 = b :=
      congrArg Prod.fst (Option.some.inj hres)
    rw [← hb]
    refine manual_fst_ge t m _ hm ?_
    intro info h
    have := hcap info h
    rwa [modeCap_manual] at this
  by_cases hauto : mode = "auto"
  · subst hauto
    rw [calculate_auto_eq] at hres
    have hb : (_auto_mode t m (get_gpu_memory_info e i)).1 = b :=
      congrArg Prod.fst (Option.some.inj hres)
    rw [← hb]
    refine auto_fst_ge t m _ hm ?_
    intro info h
    have := hcap info h
    rwa [modeCap_auto] at this
  by_cases hsmart : mode = "smart"
  · subst hsmart
    rw [calculate_smart_eq] at hres
    refine smart_fst_ge t m _ b d hm ?_ hres
    intro info h
    have := hcap info h
    rwa [modeCap_smart] at this
  · rw [calculate_unknown_eq t m mode i e hman hauto hsmart] at hres
    have hb : pyInt (max t m * GB_TO_BYTES) = b :=
      congrArg Prod.fst (Option.some.inj hres)
    rw [← hb]
    exact pyInt_mul_GB_mono hm (le_max_right t m)

/-- Witness for `claim_C1_amended`: manual mode, snapshot
`{total:24, used:10, free:14}`, `target_gb=1.0`, `min_safe_gb=2.0`. -/
theorem claim_C1_amended_witness :
    pyInt (2 * GB_TO_BYTES) ≤ 2147483648 :=
  claim_C1_amended 1 2 "manual" (envOf (some ⟨24, 10, 14⟩)) 0 2147483648
    (Detail.manualInfo 2 24 10) (by norm_num)
    (by
      intro info hinfo
      simp only [get_gpu_memory_info, validate_gpu_index, envOf] at hinfo
      norm_num at hinfo
      rw [← hinfo, modeCap_manual]
      norm_num)
    (by
      rw [calculate_manual_eq]
      norm_num [get_gpu_memory_info, validate_gpu_index, envOf, _manual_mode,
        MAX_RESERVED_RATIO, GB_TO_BYTES, pyInt])

/-- C5 (counterexample): manual mode with the corrupt snapshot
`{total:-1, used:0, free:0}` is not routed to the no-snapshot fallback:
the clamp to `total_gb * 0.9` produces the negative byte count
`int(-0.9 * 2^30) = -966367641`, while the no-snapshot fallback would
return `int(2 * 2^30) = 2147483648`. -/
theorem claim_C5_counterexample :
    (calculate_reserved_memory 1 "manual" 0 2 (envOf (some ⟨-1, 0, 0⟩))).map Prod.fst
        = some (-966367641)
    ∧ ((-966367641 : ℤ) < 0)
    ∧ (_manual_mode 1 2 none).1 = 2147483648 := by
  refine ⟨?_, by decide, ?_⟩
  · rw [calculate_manual_eq]
    norm_num [get_gpu_memory_info, validate_gpu_index, envOf, _manual_mode,
      MAX_RESERVED_RATIO, GB_TO_BYTES, pyInt, Int.ceil_neg]
  · norm_num [_manual_mode, GB_TO_BYTES, pyInt]

/-! ## Per-mode nonnegativity -/

theorem manual_fst_nonneg (t m : ℚ) (mem : Option MemInfo) (hm : 0 ≤ m)
    (htot : ∀ info, mem = some info → 0 ≤ info.total_gb) :
    0 ≤ (_manual_mode t m mem).1 := by
  have hmax : (0 : ℚ) ≤ max t m := hm.trans (le_max_right t m)
  cases mem with
  | none => exact pyInt_nonneg (mul_nonneg hmax GB_TO_BYTES_nonneg)
  | some info =>
    simp only [_manual_mode]
    split
    · refine pyInt_nonneg (mul_nonneg (mul_nonneg (htot info rfl) ?_) GB_TO_BYTES_nonneg)
      norm_num [ MAX_RESERVED_RATIO]
    · exact pyInt_nonneg (mul_nonneg hmax GB_TO_BYTES_nonneg)

theorem auto_fst_nonneg (t m : ℚ) (mem : Option MemInfo) (hm : 0 ≤ m)
    (htot : ∀ info, mem = some info → 0 ≤ info.total_gb) :
    0 ≤ (_auto_mode t m mem).1 := by
  cases mem with
  | none => exact manual_fst_nonneg t m none hm (by intro info h; cases h)
  | some info =>
    have hv : (0 : ℚ) ≤ min (max (info.used_gb + t) m) (info.total_gb * 0.85) :=
      le_min (hm.trans (le_max_right _ m)) (mul_nonneg (htot info rfl) (by norm_num))
    simp only [_auto_mode]
    split <;> exact pyInt_nonneg (mul_nonneg hv GB_TO_BYTES_nonneg)

theorem smart_fst_nonneg (t m : ℚ) (mem : Option MemInfo) (b : ℤ) (d : Detail) (hm : 0 ≤ m)
    (htot : ∀ info, mem = some info → 0 ≤ info.total_gb)
    (hres : _smart_mode t m mem = some (b, d)) :
    0 ≤ b := by
  cases mem with
  | none =>
    simp only [_smart_mode, Option.some.injEq, Prod.mk.injEq] at hres
    obtain ⟨hb, -⟩ := hres
    subst hb
    exact pyInt_nonneg (mul_nonneg (hm.trans (le_max_right _ m)) GB_TO_BYTES_nonneg)
  | some info =>
    simp only [_smart_mode] at hres
    split at hres
    · exact absurd hres (by simp)
    · simp only [Option.some.injEq, Prod.mk.injEq] at hres
      obtain ⟨hb, -⟩ := hres
      subst hb
      refine pyInt_nonneg (mul_nonneg (le_min (hm.trans (le_max_right _ m)) ?_)
        GB_TO_BYTES_nonneg)
      exact mul_nonneg (htot info rfl) (by norm_num [ MAX_RESERVED_RATIO])

/-- C5 (amended): the calculator performs no screening of snapshot
fields — a snapshot with a negative field is used as-is and can yield a
negative byte count differing from the no-snapshot fallback
(`claim_C5_counterexample`); when every delivered snapshot field is
non-negative (and the request is well-formed), the returned byte count
is non-negative for every mode. Non-finite fields (NaN/inf) do not exist
in the rational model. -/
theorem claim_C5_amended (t m : ℚ) (mode : String) (e : GPUEnv) (i : ℤ) (b : ℤ) (d : Detail)
    (hm : 0 ≤ m)
    (hwf : ∀ info, get_gpu_memory_info e i = some info →
      0 ≤ info.total_gb ∧ 0 ≤ info.used_gb ∧ 0 ≤ info.free_gb)
    (hres : calculate_reserved_memory t mode i m e = some (b, d)) :
    0 ≤ b := by
  have htot : ∀ info, get_gpu_memory_info e i = some info → 0 ≤ info.total_gb :=
    fun info h => (hwf info h).1
  by_cases hman : mode = "manual"
  · subst hman
    rw [calculate_manual_eq] at hres
    have hb : (_manual_mode t m (get_gpu_memory_info e i)).1 = b :=
      congrArg Prod.fst (Option.some.inj hres)
    rw [← hb]
    exact manual_fst_nonneg t m _ hm htot
  by_cases hauto : mode = "auto"
  · subst hauto
    rw [calculate_auto_eq] at hres
    have hb : (_auto_mode t m (get_gpu_memory_info e i)).1 = b :=
      congrArg Prod.fst (Option.some.inj hres)
    rw [← hb]
    exact auto_fst_nonneg t m _ hm htot
  by_cases hsmart : mode = "smart"
  · subst hsmart
    rw [calculate_smart_eq] at hres
    exact smart_fst_nonneg t m _ b d hm htot hres
  · rw [calculate_unknown_eq t m mode i e hman hauto hsmart] at hres
    have hb : pyInt (max t m * GB_TO_BYTES) = b :=
      congrArg Prod.fst (Option.some.inj hres)
    rw [← hb]
    exact pyInt_nonneg (mul_nonneg (hm.trans (le_max_right t m)) GB_TO_BYTES_nonneg)

/-- Witness for `claim_C5_amended`: smart mode on
`{total:24, used:20, free:4}`, `target_gb=1.0`, `min_safe_gb=2.0`. -/
theorem claim_C5_amended_witness : (0 : ℤ) ≤ 22548578304 :=
  claim_C5_amended 1 2 "smart" (envOf (some ⟨24, 20, 4⟩)) 0 22548578304
    (Detail.smartInfo 21 SmartStatus.tight 4 24 (1/6) none) (by norm_num)
    (by
      intro info hinfo
      simp only [get_gpu_memory_info, validate_gpu_index, envOf] at hinfo
      norm_num at hinfo
      rw [← hinfo]
      norm_num)
    (by
      rw [calculate_smart_eq]
      norm_num [get_gpu_memory_info, validate_gpu_index, envOf, _smart_mode,
        MEMORY_STRATEGY_tight, MAX_RESERVED_RATIO, GB_TO_BYTES, pyInt])

/-! ## Per-mode ceiling bounds -/

theorem pyInt_cast_le_of_le {v c : ℚ} (hv : 0 ≤ v) (h : v ≤ c) :
    (pyInt (v * GB_TO_BYTES) : ℚ) ≤ c * GB_TO_BYTES :=
  (pyInt_cast_le (mul_nonneg hv GB_TO_BYTES_nonneg)).trans
    (mul_le_mul_of_nonneg_right h GB_TO_BYTES_nonneg)

theorem manual_fst_le (t m : ℚ) (info : MemInfo) (hm : 0 ≤ m) (htot : 0 ≤ info.total_gb) :
    ((_manual_mode t m (some info)).1 : ℚ) ≤ info.total_gb * 0.9 * GB_TO_BYTES := by
  have h09 : (0 : ℚ) ≤ info.total_gb * MAX_RESERVED_RATIO :=
    mul_nonneg htot (by norm_num [ MAX_RESERVED_RATIO])
  simp only [_manual_mode]
  split
  next h => exact pyInt_cast_le_of_le h09 (le_of_eq (by rw [ MAX_RESERVED_RATIO]))
  next h =>
    exact pyInt_cast_le_of_le (hm.trans (le_max_right t m))
      ((not_lt.mp h).trans (le_of_eq (by rw [ MAX_RESERVED_RATIO])))

theorem auto_fst_le (t m : ℚ) (info : MemInfo) (hm : 0 ≤ m) (htot : 0 ≤ info.total_gb) :
    ((_auto_mode t m (some info)).1 : ℚ) ≤ info.total_gb * 0.85 * GB_TO_BYTES := by
  have hv0 : (0 : ℚ) ≤ min (max (info.used_gb + t) m) (info.total_gb * 0.85) :=
    le_min (hm.trans (le_max_right _ m)) (mul_nonneg htot (by norm_num))
  simp only [_auto_mode]
  split <;> exact pyInt_cast_le_of_le hv0 (min_le_right _ _)

theorem smart_fst_le (t m : ℚ) (info : MemInfo) (b : ℤ) (d : Detail) (hm : 0 ≤ m)
    (htot : 0 ≤ info.total_gb)
    (hres : _smart_mode t m (some info) = some (b, d)) :
    (b : ℚ) ≤ info.total_gb * 0.9 * GB_TO_BYTES := by
  simp only [_smart_mode] at hres
  split at hres
  · exact absurd hres (by simp)
  · simp only [Option.some.injEq, Prod.mk.injEq] at hres
    obtain ⟨hb, -⟩ := hres
    subst hb
    refine pyInt_cast_le_of_le (le_min (hm.trans (le_max_right _ m)) ?_)
      ((min_le_right _ _).trans (le_of_eq (by rw [ MAX_RESERVED_RATIO])))
    exact mul_nonneg htot (by norm_num [ MAX_RESERVED_RATIO])

/-- C6: for each of the three named modes, a result computed from a
well-formed snapshot is at most `total_gb * 0.9 * 2^30` bytes, and in
auto mode at most the stricter `total_gb * 0.85 * 2^30`. -/
theorem claim_C6_ceilings (t m : ℚ) (mode : String) (e : GPUEnv) (i : ℤ) (info : MemInfo)
    (b : ℤ) (d : Detail)
    (hmode : mode = "manual" ∨ mode = "auto" ∨ mode = "smart")
    (hm : 0 ≤ m) (htot : 0 ≤ info.total_gb)
    (hsnap : get_gpu_memory_info e i = some info)
    (hres : calculate_reserved_memory t mode i m e = some (b, d)) :
    (b : ℚ) ≤ info.total_gb * 0.9 * GB_TO_BYTES
    ∧ (mode = "auto" → (b : ℚ) ≤ info.total_gb * 0.85 * GB_TO_BYTES) := by
  have h8590 : info.total_gb * 0.85 * GB_TO_BYTES ≤ info.total_gb * 0.9 * GB_TO_BYTES :=
    mul_le_mul_of_nonneg_right
      (mul_le_mul_of_nonneg_left (by norm_num) htot) GB_TO_BYTES_nonneg
  rcases hmode with h | h | h <;> subst h
  · rw [calculate_manual_eq, hsnap] at hres
    have hb : (_manual_mode t m (some info)).1 = b :=
      congrArg Prod.fst (Option.some.inj hres)
    rw [← hb]
    exact ⟨manual_fst_le t m info hm htot, fun hx => absurd hx (by decide)⟩
  · rw [calculate_auto_eq, hsnap] at hres
    have hb : (_auto_mode t m (some info)).1 = b :=
      congrArg Prod.fst (Option.some.inj hres)
    rw [← hb]
    exact ⟨(auto_fst_le t m info hm htot).trans h8590,
      fun _ => auto_fst_le t m info hm htot⟩
  · rw [calculate_smart_eq, hsnap] at hres
    exact ⟨smart_fst_le t m info b d hm htot hres, fun hx => absurd hx (by decide)⟩

/-- Witness for `claim_C6_ceilings`: auto mode on
`{total:24, used:10, free:14}`, `target_gb=1.0`, `min_safe_gb=2.0`. -/
theorem claim_C6_ceilings_witness :
    ((11811160064 : ℤ) : ℚ) ≤ 24 * 0.9 * GB_TO_BYTES
    ∧ (( "auto" : String) = "auto" → ((11811160064 : ℤ) : ℚ) ≤ 24 * 0.85 * GB_TO_BYTES) :=
  claim_C6_ceilings 1 2 "auto" (envOf (some ⟨24, 10, 14⟩)) 0 ⟨24, 10, 14⟩ 11811160064
    (Detail.autoNormal 11 10 1) (Or.inr (Or.inl rfl)) (by norm_num) (by norm_num) rfl
    (by
      rw [calculate_auto_eq]
      norm_num [get_gpu_memory_info, validate_gpu_index, envOf, _auto_mode,
        GB_TO_BYTES, pyInt])

/-- C8: in one reclaim invocation, when both telemetry reads succeed,
`freed_memory_gb` is exactly `used_before - used_after` (no clamping, so
it may be negative); when either read returns `none`, `freed_memory_gb`
is `0.0`; in both situations the result is marked successful. -/
theorem claim_C8_reclaim (env : CleanEnv) :
    (∀ before after, env.before_memory = some before → env.after_memory = some after →
      (clear_gpu_memory env).freed_memory_gb = before.used_gb - after.used_gb
      ∧ (clear_gpu_memory env).success = true)
    ∧ ((env.before_memory = none ∨ env.after_memory = none) →
      (clear_gpu_memory env).freed_memory_gb = 0
      ∧ (clear_gpu_memory env).success = true) := by
  constructor
  · intro before after hb ha
    simp [clear_gpu_memory, hb, ha]
  · rintro (h | h)
    · cases ha : env.after_memory <;> simp [clear_gpu_memory, h, ha]
    · cases hb : env.before_memory <;> simp [clear_gpu_memory, h, hb]

/-- Witness for `claim_C8_reclaim`: concurrent allocation made `used`
grow from 10 GB to 12 GB, and the reported value is the negative
difference `10 - 12`, unclamped. -/
theorem claim_C8_reclaim_witness :
    (clear_gpu_memory ⟨some ⟨24, 10, 14⟩, some ⟨24, 12, 12⟩, true, 0⟩).freed_memory_gb
        = 10 - 12
    ∧ (clear_gpu_memory ⟨some ⟨24, 10, 14⟩, some ⟨24, 12, 12⟩, true, 0⟩).success = true :=
  (claim_C8_reclaim ⟨some ⟨24, 10, 14⟩, some ⟨24, 12, 12⟩, true, 0⟩).1
    ⟨24, 10, 14⟩ ⟨24, 12, 12⟩ rfl rfl

/-- C9: a `gpu_index` that fails validation is silently replaced by `0`
and the whole computation (including the telemetry read feeding the
calculator) proceeds exactly as if index `0` had been passed. -/
theorem claim_C9_invalid_index {α : Type} (e : GPUEnv) (a : α) (t : ℚ) (mode : String)
    (i : ℤ) (m : ℚ) (c s : Bool)
    (h : validate_gpu_index e i = false) :
    set_memory e a t mode i m c s = set_memory e a t mode 0 m c s := by
  simp only [set_memory, h]
  rcases hv : validate_gpu_index e 0 <;> simp

/-- Witness for `claim_C9_invalid_index`: a one-device environment and
the out-of-range index `5`. -/
theorem claim_C9_invalid_index_witness :
    set_memory (envOf (some ⟨24, 10, 14⟩)) (0 : ℕ) 1 "smart" 5 2 false true
      = set_memory (envOf (some ⟨24, 10, 14⟩)) (0 : ℕ) 1 "smart" 0 2 false true :=
  claim_C9_invalid_index (envOf (some ⟨24, 10, 14⟩)) 0 1 "smart" 5 2 false true (by decide)

/-- C10: both workflow nodes pass their `anything` input through
unchanged as the first component of the returned tuple, for every
environment and every combination of the remaining parameters, including
the error branch of `set_memory` (the calculator returning no value). -/
theorem claim_C10_passthrough :
    (∀ (α : Type) (e : GPUEnv) (a : α) (t : ℚ) (mode : String) (i : ℤ) (m : ℚ)
      (c s : Bool), (set_memory e a t mode i m c s).1 = a)
    ∧ (∀ (α : Type) (env : BatchEnv) (a : α) (g ag : Bool), (clean env a g ag).1 = a) := by
  constructor
  · intro α e a t mode i m c s
    simp only [set_memory]
    rcases calculate_reserved_memory t mode (if validate_gpu_index e i then i else 0) m e
      with _ | ⟨bytes, detail⟩ <;> rfl
  · intro α env a g ag
    rfl

/-- Witness for `claim_C3_smart_formula` at the snapshot
`{total:24, used:20, free:4}`. -/
theorem claim_C3_smart_formula_witness :
    (_smart_mode 1 2 (some ⟨24, 20, 4⟩)).map Prod.fst
      = some (pyInt (smartSpecValue 1 2 ⟨24, 20, 4⟩ * GB_TO_BYTES)) :=
  claim_C3_smart_formula.1 1 2 ⟨24, 20, 4⟩ (by norm_num)
